import Mathlib

/-!
Shallow embedding of the Boulder policy authority (`policy/pa.go`).

Strings are Lean `String`s; Go byte-level operations are modelled at the
character level where the two coincide (all characters the code accepts are
ASCII, and the ASCII prefix/suffix/count operations used by the code agree
between the byte view and the character view of a UTF-8 string), and at the
byte level (`byteLen`) where Go's `len` matters. All string helpers are
defined by structural recursion so that concrete instances evaluate by
`decide` / `rfl`.
-/

namespace Boulder

deriving instance DecidableEq for Except

/-- Character-level rendering of Go `strings.Split(s, ".")`: split `s` at
every dot, keeping empty parts. -/
def splitDotAux : List Char → List Char → List String
  | [], acc => [String.mk acc.reverse]
  | c :: rest, acc =>
    if c = '.' then String.mk acc.reverse :: splitDotAux rest []
    else splitDotAux rest (c :: acc)

/-- Go `strings.Split(domain, ".")`. -/
def splitOnDot (s : String) : List String := splitDotAux s.data []

/-- Go `strings.Join(parts, ".")`. -/
def joinDot : List String → String
  | [] => ""
  | [x] => x
  | x :: xs => x ++ "." ++ joinDot xs

/-- Go `strings.HasPrefix s p` (prefix `p` is ASCII in every use below, so
byte-prefix and character-prefix agree). -/
def strStartsWith (p s : String) : Bool := p.data.isPrefixOf s.data

/-- Go `strings.HasSuffix(domain, ".")`: the last byte is a dot, which for
UTF-8 is the same as the last character being a dot. -/
def endsWithDot (s : String) : Bool := s.data.getLast? == some '.'

/-- Number of bytes a character occupies in UTF-8. -/
def charUtf8Size (c : Char) : Nat :=
  if c.val ≤ 0x7F then 1 else if c.val ≤ 0x7FF then 2 else if c.val ≤ 0xFFFF then 3 else 4

/-- Go `len(s)`: the length of `s` in bytes. -/
def byteLen (s : String) : Nat := (s.data.map charUtf8Size).sum

/-- Go `strings.Count(s, "*")`: `'*'` is a single ASCII byte, so the byte
count equals the character count. -/
def countStar (s : String) : Nat := s.data.count '*'

/-- Go `strings.TrimPrefix(s, "*.")`. -/
def trimPrefixStar (s : String) : String :=
  if strStartsWith "*." s then String.mk (s.data.drop 2) else s

/-- Go `strings.SplitN(v, ".", 2)`: at most two parts, split at the first dot. -/
def splitN2 (v : String) : List String :=
  match splitOnDot v with
  | [] => []
  | [x] => [x]
  | x :: xs => [x, joinDot xs]

/-- Constants from `pa.go` lines 150-164. -/
def maxLabels : Nat := 10

def maxLabelLength : Nat := 63

def maxDNSIdentifierLength : Nat := 230

/-! ### Error taxonomy

`berrors.MalformedError` and `berrors.RejectedIdentifierError` are the two
typed error classes the code uses (`pa.go` lines 177-197); errors built with
plain `fmt.Errorf` (such as "Hostname policy not yet loaded.") carry no
`berrors` class and are modelled with the `operational` class. -/

inductive ErrClass
  | malformed
  | rejectedIdentifier
  | operational
deriving DecidableEq

structure BErr where
  cls : ErrClass
  msg : String
deriving DecidableEq

def errInvalidIdentifier : BErr := ⟨.malformed, "Invalid identifier type"⟩
def errNonPublic : BErr := ⟨.malformed, "Name does not end in a public suffix"⟩
def errICANNTLD : BErr := ⟨.malformed, "Name is an ICANN TLD"⟩
def errBlacklisted : BErr := ⟨.rejectedIdentifier, "Policy forbids issuing for name"⟩
def errInvalidDNSCharacter : BErr := ⟨.malformed, "Invalid character in DNS name"⟩
def errNameTooLong : BErr := ⟨.malformed, "DNS name too long"⟩
def errIPAddress : BErr := ⟨.malformed, "Issuance for IP addresses not supported"⟩
def errTooManyLabels : BErr := ⟨.malformed, "DNS name has too many labels"⟩
def errEmptyName : BErr := ⟨.malformed, "DNS name was empty"⟩
def errNameEndsInDot : BErr := ⟨.malformed, "DNS name ends in a period"⟩
def errTooFewLabels : BErr := ⟨.malformed, "DNS name does not have enough labels"⟩
def errLabelTooShort : BErr := ⟨.malformed, "DNS label is too short"⟩
def errLabelTooLong : BErr := ⟨.malformed, "DNS label is too long"⟩
def errMalformedIDN : BErr := ⟨.malformed, "DNS label contains malformed punycode"⟩
def errInvalidRLDH : BErr := ⟨.rejectedIdentifier, "DNS name contains a R-LDH label"⟩
def errTooManyWildcards : BErr := ⟨.malformed, "DNS name had more than one wildcard"⟩
def errMalformedWildcard : BErr := ⟨.malformed, "DNS name had a malformed wildcard label"⟩
def errICANNTLDWildcard : BErr := ⟨.malformed, "DNS name was a wildcard for an ICANN TLD"⟩
def errWildcardNotSupported : BErr := ⟨.malformed, "Wildcard names not supported"⟩

/-- The `fmt.Errorf("Hostname policy not yet loaded.")` error of
`checkHostLists` / `checkWildcardHostList`: a plain error with no
`berrors` class. -/
def errHostnamePolicyNotYetLoaded : BErr := ⟨.operational, "Hostname policy not yet loaded."⟩

/-! ### Identifiers and the authority state -/

inductive IdentifierType
  | dns
  | other
deriving DecidableEq

/-- `core.AcmeIdentifier`: a tagged type/value pair. -/
structure AcmeIdentifier where
  type : IdentifierType
  value : String
deriving DecidableEq

/-- `AuthorityImpl` (`pa.go` lines 26-38).  Go maps used as string sets are
modelled as lists read through `contains`; the `blacklist` field is
`Option`-wrapped because the code distinguishes the nil (never loaded) map.
The mutable `pseudoRNG` state is threaded explicitly through `ChallengesFor`
instead of being stored. -/
structure AuthorityImpl where
  blacklist : Option (List String)
  exactBlacklist : List String
  wildcardExactBlacklist : List String
  enabledChallenges : List (String × Bool)
  enabledChallengesWhitelist : List (String × List Int)
deriving DecidableEq

/-- `New` (`pa.go` lines 41-51): fresh authority, no hostname policy loaded. -/
def New (challengeTypes : List (String × Bool)) : AuthorityImpl :=
  { blacklist := none
    exactBlacklist := []
    wildcardExactBlacklist := []
    enabledChallenges := challengeTypes
    enabledChallengesWhitelist := [] }

/-! ### Hostname policy loading (`loadHostnamePolicy`, lines 69-112) -/

/-- The parsed form of the hostname policy file (`blacklistJSON`). -/
structure blacklistJSON where
  Blacklist : List String
  ExactBlacklist : List String
deriving DecidableEq

inductive LoadError
  | noEntries
  | malformedExactEntry (v : String)
deriving DecidableEq

/-- The loop of `loadHostnamePolicy` over `ExactBlacklist` entries: for each
entry, split at the first dot; fewer than two parts is a malformed entry;
otherwise the part after the first dot goes into the wildcard name map. -/
def buildWildcardNames : List String → Except LoadError (List String)
  | [] => .ok []
  | v :: rest =>
    if (splitN2 v).length < 2 then .error (.malformedExactEntry v)
    else
      match buildWildcardNames rest with
      | .error e => .error e
      | .ok ws => .ok ((splitN2 v).getD 1 "" :: ws)

/-- `loadHostnamePolicy` (`pa.go` lines 69-112), after JSON decoding: reject
an empty `Blacklist`, derive the wildcard-exact set from `ExactBlacklist`
(failing on any single-label entry), then replace all three sets at once.
An error leaves the authority untouched (the result carries no new state). -/
def loadHostnamePolicy (pa : AuthorityImpl) (bl : blacklistJSON) :
    Except LoadError AuthorityImpl :=
  if bl.Blacklist.length = 0 then .error .noEntries
  else
    match buildWildcardNames bl.ExactBlacklist with
    | .error e => .error e
    | .ok ws =>
      .ok { pa with
              blacklist := some bl.Blacklist
              exactBlacklist := bl.ExactBlacklist
              wildcardExactBlacklist := ws }

/-- Modelled from the spec: the reload collaborator (`reloader` package, not
under `src/`) applies a load callback and keeps the previous snapshot when
the callback fails. -/
def reloadApply (pa : AuthorityImpl) (bl : blacklistJSON) : AuthorityImpl :=
  match loadHostnamePolicy pa bl with
  | .ok pa2 => pa2
  | .error _ => pa

/-! ### Blacklist reads (`checkHostLists`, `checkWildcardHostList`) -/

/-- `checkHostLists` (`pa.go` lines 394-414): fail if no policy is loaded;
otherwise fail with `errBlacklisted` when any dot-suffix of `domain`
(starting at each label, down to the last single label) is in `blacklist`,
or `domain` is in `exactBlacklist`. -/
def checkHostLists (pa : AuthorityImpl) (domain : String) : Except BErr Unit :=
  match pa.blacklist with
  | none => .error errHostnamePolicyNotYetLoaded
  | some bl =>
    let labels := splitOnDot domain
    if (List.range labels.length).any
        (fun i => bl.contains (joinDot (labels.drop i))) then
      .error errBlacklisted
    else if pa.exactBlacklist.contains domain then
      .error errBlacklisted
    else
      .ok ()

/-- `checkWildcardHostList` (`pa.go` lines 379-392): fail if no policy is
loaded; otherwise fail with `errBlacklisted` exactly when `domain` is an
exact member of `wildcardExactBlacklist`. -/
def checkWildcardHostList (pa : AuthorityImpl) (domain : String) : Except BErr Unit :=
  match pa.blacklist with
  | none => .error errHostnamePolicyNotYetLoaded
  | some _ =>
    if pa.wildcardExactBlacklist.contains domain then .error errBlacklisted
    else .ok ()

/-! ### External collaborators of the validators -/

/-- Modelled from the spec: the external collaborators the validators call
and whose implementations are outside this module — `iana.ExtractSuffix`
(public-suffix lookup, `none` meaning "no public suffix found"),
`net.ParseIP` (`true` when the string parses as an IP literal),
`idna.ToUnicode` (`none` when decoding fails) and `norm.NFC.IsNormalString`. -/
structure Env where
  extractSuffix : String → Option String
  parseIP : String → Bool
  idnaToUnicode : String → Option String
  isNFC : String → Bool

/-- `isDNSCharacter` (`pa.go` lines 170-175).  The Go code tests every byte;
since every accepted value is ASCII, a string whose bytes all pass is
exactly a string whose characters all pass. -/
def isDNSCharacter (ch : Char) : Bool :=
  ('a' ≤ ch && ch ≤ 'z') ||
    ('A' ≤ ch && ch ≤ 'Z') ||
    ('0' ≤ ch && ch ≤ '9') ||
    ch == '.' || ch == '-'

def isLowerAlnum (c : Char) : Bool := ('a' ≤ c && c ≤ 'z') || ('0' ≤ c && c ≤ '9')

/-- The anchored regular expression `^[a-z0-9][a-z0-9-]{0,62}$`
(`dnsLabelRegexp`, `pa.go` line 166). -/
def dnsLabelRegexpMatch (s : String) : Bool :=
  match s.data with
  | [] => false
  | c :: rest =>
    isLowerAlnum c && rest.length ≤ 62 && rest.all (fun c2 => isLowerAlnum c2 || c2 == '-')

/-- The regular expression `^xn--` (`punycodeRegexp`, `pa.go` line 167). -/
def punycodeMatch (s : String) : Bool := strStartsWith "xn--" s

/-- The regular expression `^[a-z0-9]{2}--` (`idnReservedRegexp`,
`pa.go` line 168). -/
def idnReservedMatch (s : String) : Bool :=
  match s.data with
  | c1 :: c2 :: '-' :: '-' :: _ => isLowerAlnum c1 && isLowerAlnum c2
  | _ => false

/-! ### WillingToIssue (`pa.go` lines 219-306) -/

/-- The body of the per-label loop of `WillingToIssue` (`pa.go` lines
258-289): length bounds, label syntax, no trailing hyphen, then the
punycode / reserved-label checks. -/
def checkLabel (env : Env) (label : String) : Except BErr Unit :=
  if byteLen label < 1 then .error errLabelTooShort
  else if byteLen label > maxLabelLength then .error errLabelTooLong
  else if ¬ dnsLabelRegexpMatch label then .error errInvalidDNSCharacter
  else if label.data.getLast? == some '-' then .error errInvalidDNSCharacter
  else if punycodeMatch label then
    match env.idnaToUnicode label with
    | none => .error errMalformedIDN
    | some ulabel => if ¬ env.isNFC ulabel then .error errMalformedIDN else .ok ()
  else if idnReservedMatch label then .error errInvalidRLDH
  else .ok ()

/-- The per-label loop of `WillingToIssue`: labels are checked left to
right and the first failure is returned. -/
def checkLabels (env : Env) : List String → Except BErr Unit
  | [] => .ok ()
  | l :: rest =>
    match checkLabel env l with
    | .error e => .error e
    | .ok _ => checkLabels env rest

/-- `WillingToIssue` (`pa.go` lines 219-306): the ordered, short-circuiting
chain of checks, ending in the public-suffix lookup and `checkHostLists`. -/
def WillingToIssue (env : Env) (pa : AuthorityImpl) (id : AcmeIdentifier) :
    Except BErr Unit :=
  if id.type ≠ .dns then .error errInvalidIdentifier
  else
    let domain := id.value
    if domain = "" then .error errEmptyName
    else if strStartsWith "*." domain then .error errWildcardNotSupported
    else if ¬ domain.data.all isDNSCharacter then .error errInvalidDNSCharacter
    else if byteLen domain > maxDNSIdentifierLength then .error errNameTooLong
    else if env.parseIP domain then .error errIPAddress
    else if endsWithDot domain then .error errNameEndsInDot
    else
      let labels := splitOnDot domain
      if labels.length > maxLabels then .error errTooManyLabels
      else if labels.length < 2 then .error errTooFewLabels
      else
        match checkLabels env labels with
        | .error e => .error e
        | .ok _ =>
          match env.extractSuffix domain with
          | none => .error errNonPublic
          | some icannTLD =>
            if icannTLD = domain then .error errICANNTLD
            else checkHostLists pa domain

/-- `WillingToIssueWildcard` (`pa.go` lines 321-374). -/
def WillingToIssueWildcard (env : Env) (pa : AuthorityImpl) (ident : AcmeIdentifier) :
    Except BErr Unit :=
  if ident.type ≠ .dns then .error errInvalidIdentifier
  else
    let rawDomain := ident.value
    if countStar rawDomain > 1 then .error errTooManyWildcards
    else if countStar rawDomain = 1 then
      if ¬ strStartsWith "*." rawDomain then .error errMalformedWildcard
      else
        let baseDomain := trimPrefixStar rawDomain
        match env.extractSuffix baseDomain with
        | none => .error errNonPublic
        | some icannTLD =>
          if baseDomain = icannTLD then .error errICANNTLDWildcard
          else
            match checkWildcardHostList pa baseDomain with
            | .error e => .error e
            | .ok _ => WillingToIssue env pa ⟨.dns, "x." ++ baseDomain⟩
    else WillingToIssue env pa ident

/-! ### Challenge selection (`ChallengesFor`, `pa.go` lines 420-482) -/

/-- Modelled from the spec: a challenge value carries a challenge type and
a token (`core.Challenge` and the `core.XXXChallenge01` constructors are
outside `src/`). -/
structure Challenge where
  typ : String
  token : String
deriving DecidableEq

def ChallengeTypeHTTP01 : String := "http-01"

def ChallengeTypeTLSSNI01 : String := "tls-sni-01"

def ChallengeTypeTLSALPN01 : String := "tls-alpn-01"

def ChallengeTypeDNS01 : String := "dns-01"

def HTTPChallenge01 (token : String) : Challenge := ⟨ChallengeTypeHTTP01, token⟩

def TLSSNIChallenge01 (token : String) : Challenge := ⟨ChallengeTypeTLSSNI01, token⟩

def TLSALPNChallenge01 (token : String) : Challenge := ⟨ChallengeTypeTLSALPN01, token⟩

def DNSChallenge01 (token : String) : Challenge := ⟨ChallengeTypeDNS01, token⟩

/-- Modelled from the spec: the two global feature flags `ChallengesFor`
consults (`features` package, outside `src/`). -/
structure Features where
  NewAuthorizationSchema : Bool
  TLSSNIRevalidation : Bool
deriving DecidableEq

/-- Lookup in a Go `map[string]bool`: missing keys read as `false`. -/
def lookupBool (m : List (String × Bool)) (k : String) : Bool :=
  match m.find? (fun p => p.1 == k) with
  | some p => p.2
  | none => false

/-- Lookup in a Go `map[string]map[int64]bool`: missing keys read as nil. -/
def lookupAccounts (m : List (String × List Int)) (k : String) : Option (List Int) :=
  match m.find? (fun p => p.1 == k) with
  | some p => some p.2
  | none => none

/-- `ChallengeTypeEnabled` (`pa.go` lines 485-490): globally enabled, or the
account is present in the per-type whitelist. -/
def ChallengeTypeEnabled (pa : AuthorityImpl) (t : String) (regID : Int) : Bool :=
  lookupBool pa.enabledChallenges t ||
    (match lookupAccounts pa.enabledChallengesWhitelist t with
     | some accts => accts.contains regID
     | none => false)

/-- The challenge-collection phase of `ChallengesFor` (`pa.go` lines
430-462): a wildcard identifier gets exactly a DNS-01 challenge when DNS-01
is enabled and an error otherwise; any other identifier collects the
enabled types in the fixed order HTTP-01, TLS-SNI-01 (also enabled when the
revalidation feature flag is set and this is a revalidation), TLS-ALPN-01,
DNS-01. -/
def collectChallenges (feats : Features) (token : String) (pa : AuthorityImpl)
    (identifier : AcmeIdentifier) (regID : Int) (revalidation : Bool) :
    Except String (List Challenge) :=
  if strStartsWith "*." identifier.value then
    if ¬ ChallengeTypeEnabled pa ChallengeTypeDNS01 regID then
      .error "Challenges requested for wildcard identifier but DNS-01 challenge type is not enabled"
    else .ok [DNSChallenge01 token]
  else
    .ok ((if ChallengeTypeEnabled pa ChallengeTypeHTTP01 regID then [HTTPChallenge01 token] else []) ++
      (if ChallengeTypeEnabled pa ChallengeTypeTLSSNI01 regID ||
          (feats.TLSSNIRevalidation && revalidation) then [TLSSNIChallenge01 token] else []) ++
      (if ChallengeTypeEnabled pa ChallengeTypeTLSALPN01 regID then [TLSALPNChallenge01 token] else []) ++
      (if ChallengeTypeEnabled pa ChallengeTypeDNS01 regID then [DNSChallenge01 token] else []))

/-- `ChallengesFor` (`pa.go` lines 420-482).  The pseudo-random sequencer
(`math/rand`, modelled from the spec) is an explicit state `s : σ` together
with a draw function `perm`; each `perm s n` is, per its contract, a
permutation of `0, ..., n-1` plus the successor state, and the two draws
shuffle the challenge list and the singleton combination list.  A token is
generated only when the new-authorization-schema feature is on.  The error
path returns the sequencer state untouched. -/
def ChallengesFor {σ : Type} (perm : σ → Nat → List Nat × σ) (feats : Features)
    (newToken : String) (pa : AuthorityImpl) (s : σ) (identifier : AcmeIdentifier)
    (regID : Int) (revalidation : Bool) :
    Except String (List Challenge × List (List Nat)) × σ :=
  let token := if feats.NewAuthorizationSchema then newToken else ""
  match collectChallenges feats token pa identifier regID revalidation with
  | .error e => (.error e, s)
  | .ok challenges =>
    let draw1 := perm s challenges.length
    let shuffled := draw1.1.map (fun j => challenges.getD j (DNSChallenge01 token))
    let combinations := (List.range challenges.length).map (fun i => [i])
    let draw2 := perm draw1.2 combinations.length
    let shuffledCombos := draw2.1.map (fun j => combinations.getD j [])
    (.ok (shuffled, shuffledCombos), draw2.2)

/-! ### Helper lemmas -/

theorem checkHostLists_of_none (pa : AuthorityImpl) (d : String)
    (h : pa.blacklist = none) :
    checkHostLists pa d = .error errHostnamePolicyNotYetLoaded := by
  unfold checkHostLists
  rw [h]

theorem checkWildcardHostList_of_none (pa : AuthorityImpl) (d : String)
    (h : pa.blacklist = none) :
    checkWildcardHostList pa d = .error errHostnamePolicyNotYetLoaded := by
  unfold checkWildcardHostList
  rw [h]

theorem willingToIssue_ne_ok_of_none (env : Env) (pa : AuthorityImpl)
    (id : AcmeIdentifier) (h : pa.blacklist = none) :
    WillingToIssue env pa id ≠ .ok () := by
  intro hc
  unfold WillingToIssue at hc
  simp only [] at hc
  rw [checkHostLists_of_none pa id.value h] at hc
  repeat' split at hc
  all_goals simp_all

theorem willingToIssueWildcard_ne_ok_of_none (env : Env) (pa : AuthorityImpl)
    (id : AcmeIdentifier) (h : pa.blacklist = none) :
    WillingToIssueWildcard env pa id ≠ .ok () := by
  intro hc
  unfold WillingToIssueWildcard at hc
  simp only [] at hc
  rw [checkWildcardHostList_of_none pa (trimPrefixStar id.value) h] at hc
  repeat' split at hc
  all_goals
    first
      | exact willingToIssue_ne_ok_of_none env pa _ h hc
      | simp_all

/-- With the identifier type DNS and every check before the blacklist stage
passing, `WillingToIssue` is exactly `checkHostLists`. -/
theorem willingToIssue_eq_checkHostLists (env : Env) (pa : AuthorityImpl)
    (t D : String)
    (h2 : D ≠ "") (h3 : strStartsWith "*." D = false)
    (h4 : D.data.all isDNSCharacter = true)
    (h5 : ¬ byteLen D > maxDNSIdentifierLength)
    (h6 : env.parseIP D = false) (h7 : endsWithDot D = false)
    (h8 : ¬ (splitOnDot D).length > maxLabels)
    (h9 : ¬ (splitOnDot D).length < 2)
    (h10 : checkLabels env (splitOnDot D) = .ok ())
    (h11 : env.extractSuffix D = some t) (h12 : t ≠ D) :
    WillingToIssue env pa ⟨.dns, D⟩ = checkHostLists pa D := by
  unfold WillingToIssue
  simp only [h2, h3, h4, h5, h6, h7, h8, h9, h10, h11, h12, ite_true, ite_false,
    Bool.false_eq_true, not_false_eq_true, not_true_eq_false]
  simp [h2, h5, h8, h9, h12]

/-- When `buildWildcardNames` succeeds, the result is exactly the map of
"entry minus its first label" over the input, and no entry was malformed. -/
theorem buildWildcardNames_ok (l : List String) (ws : List String)
    (h : buildWildcardNames l = .ok ws) :
    ws = l.map (fun v => (splitN2 v).getD 1 "") ∧ ∀ v ∈ l, 2 ≤ (splitN2 v).length := by
  induction l generalizing ws with
  | nil =>
    unfold buildWildcardNames at h
    cases h
    simp
  | cons a rest ih =>
    unfold buildWildcardNames at h
    by_cases ha : (splitN2 a).length < 2
    · rw [if_pos ha] at h
      cases h
    · rw [if_neg ha] at h
      cases hrest : buildWildcardNames rest with
      | error e => rw [hrest] at h; cases h
      | ok ws2 =>
        rw [hrest] at h
        cases h
        obtain ⟨hmap, hall⟩ := ih ws2 hrest
        refine ⟨by simp [hmap], ?_⟩
        intro v hv
        rcases List.mem_cons.mp hv with hva | hvr
        · subst hva; omega
        · exact hall v hvr

/-- The loop over `ExactBlacklist` fails on the first malformed entry. -/
theorem buildWildcardNames_error_of_malformed (l : List String)
    (hex : ∃ v ∈ l, (splitN2 v).length < 2) :
    ∃ v ∈ l, (splitN2 v).length < 2 ∧
      buildWildcardNames l = .error (.malformedExactEntry v) := by
  induction l with
  | nil => simp at hex
  | cons a rest ih =>
    by_cases ha : (splitN2 a).length < 2
    · refine ⟨a, List.mem_cons_self a rest, ha, ?_⟩
      unfold buildWildcardNames
      rw [if_pos ha]
    · obtain ⟨v, hv, hlen⟩ := hex
      rcases List.mem_cons.mp hv with hva | hvr
      · subst hva; exact absurd hlen ha
      · obtain ⟨v2, hv2, hlen2, herr⟩ := ih ⟨v, hvr, hlen⟩
        refine ⟨v2, List.mem_cons_of_mem a hv2, hlen2, ?_⟩
        unfold buildWildcardNames
        rw [if_neg ha, herr]

/-- Field-level description of a successful `loadHostnamePolicy`. -/
theorem loadHostnamePolicy_ok_fields (pa pa2 : AuthorityImpl) (bl : blacklistJSON)
    (hok : loadHostnamePolicy pa bl = .ok pa2) :
    pa2.blacklist = some bl.Blacklist ∧
    pa2.exactBlacklist = bl.ExactBlacklist ∧
    pa2.wildcardExactBlacklist = bl.ExactBlacklist.map (fun v => (splitN2 v).getD 1 "") ∧
    (∀ v ∈ bl.ExactBlacklist, 2 ≤ (splitN2 v).length) ∧
    pa2.enabledChallenges = pa.enabledChallenges ∧
    pa2.enabledChallengesWhitelist = pa.enabledChallengesWhitelist := by
  unfold loadHostnamePolicy at hok
  by_cases h0 : bl.Blacklist.length = 0
  · rw [if_pos h0] at hok; cases hok
  · rw [if_neg h0] at hok
    cases hbw : buildWildcardNames bl.ExactBlacklist with
    | error e => rw [hbw] at hok; cases hok
    | ok ws =>
      rw [hbw] at hok
      cases hok
      obtain ⟨hmap, hall⟩ := buildWildcardNames_ok bl.ExactBlacklist ws hbw
      exact ⟨rfl, rfl, hmap, hall, rfl, rfl⟩

/-! ### Claim theorems -/

/-- C1: with a hostname policy loaded, `checkHostLists D` — and hence
`WillingToIssue` on an otherwise-valid `D` — fails with the blacklisted
error if and only if some dot-delimited label suffix of `D` (the full
domain down to the last single label) is in the blacklist set, or `D` is
exactly a member of the exact blacklist. -/
theorem checkHostLists_blacklisted_iff (env : Env) (pa : AuthorityImpl)
    (bl : List String) (t D : String) (hload : pa.blacklist = some bl)
    (h2 : D ≠ "") (h3 : strStartsWith "*." D = false)
    (h4 : D.data.all isDNSCharacter = true)
    (h5 : ¬ byteLen D > maxDNSIdentifierLength)
    (h6 : env.parseIP D = false) (h7 : endsWithDot D = false)
    (h8 : ¬ (splitOnDot D).length > maxLabels)
    (h9 : ¬ (splitOnDot D).length < 2)
    (h10 : checkLabels env (splitOnDot D) = .ok ())
    (h11 : env.extractSuffix D = some t) (h12 : t ≠ D) :
    (checkHostLists pa D = .error errBlacklisted ↔
      ((∃ i < (splitOnDot D).length, joinDot ((splitOnDot D).drop i) ∈ bl) ∨
        D ∈ pa.exactBlacklist)) ∧
    (WillingToIssue env pa ⟨.dns, D⟩ = .error errBlacklisted ↔
      ((∃ i < (splitOnDot D).length, joinDot ((splitOnDot D).drop i) ∈ bl) ∨
        D ∈ pa.exactBlacklist)) := by
  have hmain : checkHostLists pa D = .error errBlacklisted ↔
      ((∃ i < (splitOnDot D).length, joinDot ((splitOnDot D).drop i) ∈ bl) ∨
        D ∈ pa.exactBlacklist) := by
    unfold checkHostLists
    rw [hload]
    simp only [List.any_eq_true, List.mem_range, List.elem_iff]
    by_cases hA : ∃ i < (splitOnDot D).length, joinDot ((splitOnDot D).drop i) ∈ bl
    · simp [hA]
    · by_cases hB : D ∈ pa.exactBlacklist
      · simp [hA, hB]
      · push_neg at hA
        simp [hA, hB, errBlacklisted]
  exact ⟨hmain, by
    rw [willingToIssue_eq_checkHostLists env pa t D h2 h3 h4 h5 h6 h7 h8 h9 h10 h11 h12]
    exact hmain⟩

/-- C2: before the first successful hostname-policy load (nil blacklist),
`checkHostLists` and `checkWildcardHostList` fail with the "not yet loaded"
error, and neither `WillingToIssue` nor `WillingToIssueWildcard` can
succeed: the policy fails closed. -/
theorem notYetLoaded_fails_closed (env : Env) (pa : AuthorityImpl)
    (id : AcmeIdentifier) (d : String) (h : pa.blacklist = none) :
    checkHostLists pa d = .error errHostnamePolicyNotYetLoaded ∧
    checkWildcardHostList pa d = .error errHostnamePolicyNotYetLoaded ∧
    WillingToIssue env pa id ≠ .ok () ∧
    WillingToIssueWildcard env pa id ≠ .ok () :=
  ⟨checkHostLists_of_none pa d h, checkWildcardHostList_of_none pa d h,
    willingToIssue_ne_ok_of_none env pa id h,
    willingToIssueWildcard_ne_ok_of_none env pa id h⟩

/-- C3: `loadHostnamePolicy` fails with the "no entries" condition on an
empty `Blacklist` and with the "malformed entry" condition when some
`ExactBlacklist` entry has fewer than two labels; a failed load leaves the
authority unchanged, and a successful load replaces all three sets at once
while touching nothing else. -/
theorem loadHostnamePolicy_conditions (pa : AuthorityImpl) (bl : blacklistJSON) :
    (bl.Blacklist = [] → loadHostnamePolicy pa bl = .error .noEntries) ∧
    (bl.Blacklist ≠ [] → (∃ v ∈ bl.ExactBlacklist, (splitN2 v).length < 2) →
      ∃ v ∈ bl.ExactBlacklist, (splitN2 v).length < 2 ∧
        loadHostnamePolicy pa bl = .error (.malformedExactEntry v)) ∧
    (∀ e, loadHostnamePolicy pa bl = .error e → reloadApply pa bl = pa) ∧
    (∀ pa2, loadHostnamePolicy pa bl = .ok pa2 →
      pa2.blacklist = some bl.Blacklist ∧
      pa2.exactBlacklist = bl.ExactBlacklist ∧
      pa2.wildcardExactBlacklist =
        bl.ExactBlacklist.map (fun v => (splitN2 v).getD 1 "") ∧
      pa2.enabledChallenges = pa.enabledChallenges ∧
      pa2.enabledChallengesWhitelist = pa.enabledChallengesWhitelist) := by
  refine ⟨?_, ?_, ?_, ?_⟩
  · intro h0
    unfold loadHostnamePolicy
    rw [if_pos (by simp [h0])]
  · intro h0 hex
    obtain ⟨v, hv, hlen, herr⟩ := buildWildcardNames_error_of_malformed bl.ExactBlacklist hex
    refine ⟨v, hv, hlen, ?_⟩
    unfold loadHostnamePolicy
    rw [if_neg (by simp [h0]), herr]
  · intro e he
    unfold reloadApply
    rw [he]
  · intro pa2 hok
    obtain ⟨hb, hx, hw, _, he, hwl⟩ := loadHostnamePolicy_ok_fields pa pa2 bl hok
    exact ⟨hb, hx, hw, he, hwl⟩

/-- C4: after a successful load every exact-blacklist entry has at least two
labels and contributes its parent (the entry minus its leftmost label) to
`wildcardExactBlacklist`; `checkWildcardHostList` fails with the
blacklisted error exactly on exact members of that set (not
suffix-recursively), and a wildcard name whose base domain is such a member
is rejected by `WillingToIssueWildcard` with the blacklisted error. -/
theorem wildcardExactBlacklist_spec (pa pa2 : AuthorityImpl) (bl : blacklistJSON)
    (hok : loadHostnamePolicy pa bl = .ok pa2) :
    (∀ v ∈ bl.ExactBlacklist, 2 ≤ (splitN2 v).length ∧
      (splitN2 v).getD 1 "" ∈ pa2.wildcardExactBlacklist) ∧
    (∀ d, checkWildcardHostList pa2 d = .error errBlacklisted ↔
      d ∈ pa2.wildcardExactBlacklist) ∧
    (∀ (env : Env) (s d t : String), d ∈ pa2.wildcardExactBlacklist →
      countStar s = 1 → strStartsWith "*." s = true → trimPrefixStar s = d →
      env.extractSuffix d = some t → t ≠ d →
      WillingToIssueWildcard env pa2 ⟨.dns, s⟩ = .error errBlacklisted) := by
  obtain ⟨hb, hx, hw, hall, _, _⟩ := loadHostnamePolicy_ok_fields pa pa2 bl hok
  have hcw : ∀ d, checkWildcardHostList pa2 d = .error errBlacklisted ↔
      d ∈ pa2.wildcardExactBlacklist := by
    intro d
    unfold checkWildcardHostList
    rw [hb]
    by_cases hd : d ∈ pa2.wildcardExactBlacklist
    · simp [List.elem_iff, hd]
    · simp [List.elem_iff, hd, errHostnamePolicyNotYetLoaded, errBlacklisted]
  refine ⟨?_, hcw, ?_⟩
  · intro v hv
    refine ⟨hall v hv, ?_⟩
    rw [hw]
    exact List.mem_map.mpr ⟨v, hv, rfl⟩
  · intro env s d t hd hc1 hpre htrim hsuf hne
    unfold WillingToIssueWildcard
    simp only [hc1, hpre, htrim, hsuf]
    rw [(hcw d).mpr hd]
    simp [hne.symm]

/-! ### Witness fixtures: a concrete environment and authorities -/

/-- A concrete external environment for witnesses: `.com` is the only public
suffix, `192.0.2.1` the only IP literal, `xn--bad` the only label punycode
fails on. -/
def envW : Env :=
  { extractSuffix := fun d =>
      if d = "com" then some "com"
      else if d.data.reverse.take 4 = ['m', 'o', 'c', '.'] then some "com"
      else none
    parseIP := fun s => s == "192.0.2.1"
    idnaToUnicode := fun s => if s == "xn--bad" then none else some s
    isNFC := fun _ => true }

/-- A concrete loaded authority for witnesses. -/
def paW : AuthorityImpl :=
  { blacklist := some ["example.com"]
    exactBlacklist := ["exact.com"]
    wildcardExactBlacklist := ["parent.com"]
    enabledChallenges := []
    enabledChallengesWhitelist := [] }

def blW : blacklistJSON := ⟨["dummy.net"], ["evil.example.com"]⟩

/-- The authority produced by loading `blW` into a fresh authority. -/
def paW2 : AuthorityImpl :=
  { blacklist := some ["dummy.net"]
    exactBlacklist := ["evil.example.com"]
    wildcardExactBlacklist := ["example.com"]
    enabledChallenges := []
    enabledChallengesWhitelist := [] }

/-- Witness for C1: the entry `example.com` blocks `foo.example.com`. -/
theorem checkHostLists_blacklisted_iff_witness :
    paW.blacklist = some ["example.com"] ∧
    checkHostLists paW "foo.example.com" = .error errBlacklisted ∧
    WillingToIssue envW paW ⟨.dns, "foo.example.com"⟩ = .error errBlacklisted :=
  ⟨by decide,
    (checkHostLists_blacklisted_iff envW paW ["example.com"] "com" "foo.example.com"
      (by decide) (by decide) (by decide) (by decide) (by decide) (by decide)
      (by decide) (by decide) (by decide) (by decide) (by decide) (by decide)).1.mpr
      (Or.inl ⟨1, by decide, by decide⟩),
    (checkHostLists_blacklisted_iff envW paW ["example.com"] "com" "foo.example.com"
      (by decide) (by decide) (by decide) (by decide) (by decide) (by decide)
      (by decide) (by decide) (by decide) (by decide) (by decide) (by decide)).2.mpr
      (Or.inl ⟨1, by decide, by decide⟩)⟩

/-- Witness for C2: a fresh authority fails closed on `example.com`. -/
theorem notYetLoaded_fails_closed_witness :
    (New []).blacklist = none ∧
    checkHostLists (New []) "example.com" = .error errHostnamePolicyNotYetLoaded ∧
    checkWildcardHostList (New []) "example.com" = .error errHostnamePolicyNotYetLoaded ∧
    WillingToIssue envW (New []) ⟨.dns, "example.com"⟩ ≠ .ok () ∧
    WillingToIssueWildcard envW (New []) ⟨.dns, "example.com"⟩ ≠ .ok () :=
  ⟨by decide,
    notYetLoaded_fails_closed envW (New []) ⟨.dns, "example.com"⟩ "example.com" (by decide)⟩

/-- Witness for C3: an empty `Blacklist` fails the load and leaves the
previous snapshot in place; a malformed `ExactBlacklist` entry also fails. -/
theorem loadHostnamePolicy_conditions_witness :
    loadHostnamePolicy paW ⟨[], []⟩ = .error .noEntries ∧
    reloadApply paW ⟨[], []⟩ = paW ∧
    (∃ v ∈ (⟨["d.net"], ["com"]⟩ : blacklistJSON).ExactBlacklist,
      (splitN2 v).length < 2 ∧
        loadHostnamePolicy paW ⟨["d.net"], ["com"]⟩ = .error (.malformedExactEntry v)) :=
  ⟨(loadHostnamePolicy_conditions paW ⟨[], []⟩).1 (by decide),
    (loadHostnamePolicy_conditions paW ⟨[], []⟩).2.2.1 .noEntries
      ((loadHostnamePolicy_conditions paW ⟨[], []⟩).1 (by decide)),
    (loadHostnamePolicy_conditions paW ⟨["d.net"], ["com"]⟩).2.1 (by decide)
      ⟨"com", by decide, by decide⟩⟩

/-- Witness for C4: loading exact entry `evil.example.com` puts
`example.com` on the wildcard-exact blacklist and blocks
`*.example.com`. -/
theorem wildcardExactBlacklist_spec_witness :
    loadHostnamePolicy (New []) blW = .ok paW2 ∧
    (splitN2 "evil.example.com").getD 1 "" ∈ paW2.wildcardExactBlacklist ∧
    WillingToIssueWildcard envW paW2 ⟨.dns, "*.example.com"⟩ = .error errBlacklisted :=
  ⟨by decide,
    ((wildcardExactBlacklist_spec (New []) paW2 blW (by decide)).1 "evil.example.com"
      (by decide)).2,
    (wildcardExactBlacklist_spec (New []) paW2 blW (by decide)).2.2 envW
      "*.example.com" "example.com" "com" (by decide) (by decide) (by decide)
      (by decide) (by decide) (by decide)⟩

/-- C5: case description of `WillingToIssueWildcard` — non-DNS identifiers,
more than one `*`, a single `*` not forming the prefix `*.`, a base domain
with no public suffix, a base domain equal to its suffix, a
`checkWildcardHostList` failure, and the final delegation of `x.` plus the
base domain to `WillingToIssue`; a value without `*` delegates unchanged. -/
theorem willingToIssueWildcard_cases (env : Env) (pa : AuthorityImpl)
    (ident : AcmeIdentifier) :
    (ident.type ≠ .dns → WillingToIssueWildcard env pa ident = .error errInvalidIdentifier) ∧
    (ident.type = .dns → countStar ident.value > 1 →
      WillingToIssueWildcard env pa ident = .error errTooManyWildcards) ∧
    (ident.type = .dns → countStar ident.value = 1 →
      strStartsWith "*." ident.value = false →
      WillingToIssueWildcard env pa ident = .error errMalformedWildcard) ∧
    (ident.type = .dns → countStar ident.value = 1 →
      strStartsWith "*." ident.value = true →
      env.extractSuffix (trimPrefixStar ident.value) = none →
      WillingToIssueWildcard env pa ident = .error errNonPublic) ∧
    (∀ t, ident.type = .dns → countStar ident.value = 1 →
      strStartsWith "*." ident.value = true →
      env.extractSuffix (trimPrefixStar ident.value) = some t →
      t = trimPrefixStar ident.value →
      WillingToIssueWildcard env pa ident = .error errICANNTLDWildcard) ∧
    (∀ t e, ident.type = .dns → countStar ident.value = 1 →
      strStartsWith "*." ident.value = true →
      env.extractSuffix (trimPrefixStar ident.value) = some t →
      t ≠ trimPrefixStar ident.value →
      checkWildcardHostList pa (trimPrefixStar ident.value) = .error e →
      WillingToIssueWildcard env pa ident = .error e) ∧
    (∀ t, ident.type = .dns → countStar ident.value = 1 →
      strStartsWith "*." ident.value = true →
      env.extractSuffix (trimPrefixStar ident.value) = some t →
      t ≠ trimPrefixStar ident.value →
      checkWildcardHostList pa (trimPrefixStar ident.value) = .ok () →
      WillingToIssueWildcard env pa ident =
        WillingToIssue env pa ⟨.dns, "x." ++ trimPrefixStar ident.value⟩) ∧
    (ident.type = .dns → countStar ident.value = 0 →
      WillingToIssueWildcard env pa ident = WillingToIssue env pa ident) := by
  refine ⟨?_, ?_, ?_, ?_, ?_, ?_, ?_, ?_⟩
  · intro h1
    unfold WillingToIssueWildcard
    rw [if_pos h1]
  · intro h1 h2
    unfold WillingToIssueWildcard
    simp [h1, h2]
  · intro h1 h2 h3
    unfold WillingToIssueWildcard
    simp [h1, h2, h3]
  · intro h1 h2 h3 h4
    unfold WillingToIssueWildcard
    simp [h1, h2, h3, h4]
  · intro t h1 h2 h3 h4 h5
    unfold WillingToIssueWildcard
    simp [h1, h2, h3, h4, h5]
  · intro t e h1 h2 h3 h4 h5 h6
    unfold WillingToIssueWildcard
    simp [h1, h2, h3, h4, Ne.symm h5, h6]
  · intro t h1 h2 h3 h4 h5 h6
    unfold WillingToIssueWildcard
    simp [h1, h2, h3, h4, Ne.symm h5, h6]
  · intro h1 h2
    unfold WillingToIssueWildcard
    simp [h1, h2]

/-- Witness for C5, exercised on the too-many-wildcards branch. -/
theorem willingToIssueWildcard_cases_witness :
    countStar "*.*.com" > 1 ∧
    WillingToIssueWildcard envW paW ⟨.dns, "*.*.com"⟩ = .error errTooManyWildcards :=
  ⟨by decide,
    (willingToIssueWildcard_cases envW paW ⟨.dns, "*.*.com"⟩).2.1 (by decide) (by decide)⟩

/-- C6: the ordered, short-circuiting checks of `WillingToIssue`, each with
its specific error — identifier type, emptiness, wildcard prefix, character
set, the 230-octet bound, IP literal, trailing dot, label count between 2
and 10, the per-label loop (whose first failure is returned, and where a
label ending in a hyphen yields the invalid-character error), the
public-suffix checks, and finally the blacklist check; names containing an
underscore fail the character-set check. -/
theorem willingToIssue_ordered_checks (env : Env) (pa : AuthorityImpl)
    (id : AcmeIdentifier) :
    (id.type ≠ .dns → WillingToIssue env pa id = .error errInvalidIdentifier) ∧
    (id.type = .dns → id.value = "" → WillingToIssue env pa id = .error errEmptyName) ∧
    (id.type = .dns → id.value ≠ "" → strStartsWith "*." id.value = true →
      WillingToIssue env pa id = .error errWildcardNotSupported) ∧
    (id.type = .dns → id.value ≠ "" → strStartsWith "*." id.value = false →
      id.value.data.all isDNSCharacter = false →
      WillingToIssue env pa id = .error errInvalidDNSCharacter) ∧
    (id.type = .dns → id.value ≠ "" → strStartsWith "*." id.value = false →
      id.value.data.all isDNSCharacter = true →
      byteLen id.value > maxDNSIdentifierLength →
      WillingToIssue env pa id = .error errNameTooLong) ∧
    (id.type = .dns → id.value ≠ "" → strStartsWith "*." id.value = false →
      id.value.data.all isDNSCharacter = true →
      ¬ byteLen id.value > maxDNSIdentifierLength →
      env.parseIP id.value = true →
      WillingToIssue env pa id = .error errIPAddress) ∧
    (id.type = .dns → id.value ≠ "" → strStartsWith "*." id.value = false →
      id.value.data.all isDNSCharacter = true →
      ¬ byteLen id.value > maxDNSIdentifierLength →
      env.parseIP id.value = false → endsWithDot id.value = true →
      WillingToIssue env pa id = .error errNameEndsInDot) ∧
    (id.type = .dns → id.value ≠ "" → strStartsWith "*." id.value = false →
      id.value.data.all isDNSCharacter = true →
      ¬ byteLen id.value > maxDNSIdentifierLength →
      env.parseIP id.value = false → endsWithDot id.value = false →
      (splitOnDot id.value).length > maxLabels →
      WillingToIssue env pa id = .error errTooManyLabels) ∧
    (id.type = .dns → id.value ≠ "" → strStartsWith "*." id.value = false →
      id.value.data.all isDNSCharacter = true →
      ¬ byteLen id.value > maxDNSIdentifierLength →
      env.parseIP id.value = false → endsWithDot id.value = false →
      ¬ (splitOnDot id.value).length > maxLabels →
      (splitOnDot id.value).length < 2 →
      WillingToIssue env pa id = .error errTooFewLabels) ∧
    (∀ e, id.type = .dns → id.value ≠ "" → strStartsWith "*." id.value = false →
      id.value.data.all isDNSCharacter = true →
      ¬ byteLen id.value > maxDNSIdentifierLength →
      env.parseIP id.value = false → endsWithDot id.value = false →
      ¬ (splitOnDot id.value).length > maxLabels →
      ¬ (splitOnDot id.value).length < 2 →
      checkLabels env (splitOnDot id.value) = .error e →
      WillingToIssue env pa id = .error e) ∧
    (id.type = .dns → id.value ≠ "" → strStartsWith "*." id.value = false →
      id.value.data.all isDNSCharacter = true →
      ¬ byteLen id.value > maxDNSIdentifierLength →
      env.parseIP id.value = false → endsWithDot id.value = false →
      ¬ (splitOnDot id.value).length > maxLabels →
      ¬ (splitOnDot id.value).length < 2 →
      checkLabels env (splitOnDot id.value) = .ok () →
      env.extractSuffix id.value = none →
      WillingToIssue env pa id = .error errNonPublic) ∧
    (∀ t, id.type = .dns → id.value ≠ "" → strStartsWith "*." id.value = false →
      id.value.data.all isDNSCharacter = true →
      ¬ byteLen id.value > maxDNSIdentifierLength →
      env.parseIP id.value = false → endsWithDot id.value = false →
      ¬ (splitOnDot id.value).length > maxLabels →
      ¬ (splitOnDot id.value).length < 2 →
      checkLabels env (splitOnDot id.value) = .ok () →
      env.extractSuffix id.value = some t → t = id.value →
      WillingToIssue env pa id = .error errICANNTLD) ∧
    (∀ t, id.type = .dns → id.value ≠ "" → strStartsWith "*." id.value = false →
      id.value.data.all isDNSCharacter = true →
      ¬ byteLen id.value > maxDNSIdentifierLength →
      env.parseIP id.value = false → endsWithDot id.value = false →
      ¬ (splitOnDot id.value).length > maxLabels →
      ¬ (splitOnDot id.value).length < 2 →
      checkLabels env (splitOnDot id.value) = .ok () →
      env.extractSuffix id.value = some t → t ≠ id.value →
      WillingToIssue env pa id = checkHostLists pa id.value) ∧
    ('_' ∈ id.value.data → id.value.data.all isDNSCharacter = false) ∧
    (∀ l : String, 1 ≤ byteLen l → byteLen l ≤ maxLabelLength →
      l.data.getLast? = some '-' →
      checkLabel env l = .error errInvalidDNSCharacter) := by
  refine ⟨?_, ?_, ?_, ?_, ?_, ?_, ?_, ?_, ?_, ?_, ?_, ?_, ?_, ?_, ?_⟩
  · intro h1
    unfold WillingToIssue
    rw [if_pos h1]
  · intro h1 h2
    unfold WillingToIssue
    simp [h1, h2]
  · intro h1 h2 h3
    unfold WillingToIssue
    simp [h1, h2, h3]
  · intro h1 h2 h3 h4
    unfold WillingToIssue
    simp [h1, h2, h3, h4]
  · intro h1 h2 h3 h4 h5
    unfold WillingToIssue
    simp [h1, h2, h3, h4, h5]
  · intro h1 h2 h3 h4 h5 h6
    unfold WillingToIssue
    simp [h1, h2, h3, h4, h5, h6]
  · intro h1 h2 h3 h4 h5 h6 h7
    unfold WillingToIssue
    simp [h1, h2, h3, h4, h5, h6, h7]
  · intro h1 h2 h3 h4 h5 h6 h7 h8
    unfold WillingToIssue
    simp [h1, h2, h3, h4, h5, h6, h7, h8]
  · intro h1 h2 h3 h4 h5 h6 h7 h8 h9
    unfold WillingToIssue
    simp [h1, h2, h3, h4, h5, h6, h7, h8, h9]
  · intro e h1 h2 h3 h4 h5 h6 h7 h8 h9 h10
    unfold WillingToIssue
    simp [h1, h2, h3, h4, h5, h6, h7, h8, h9, h10]
  · intro h1 h2 h3 h4 h5 h6 h7 h8 h9 h10 h11
    unfold WillingToIssue
    simp [h1, h2, h3, h4, h5, h6, h7, h8, h9, h10, h11]
  · intro t h1 h2 h3 h4 h5 h6 h7 h8 h9 h10 h11 h12
    unfold WillingToIssue
    simp [h1, h2, h3, h4, h5, h6, h7, h8, h9, h10, h11, h12]
  · intro t h1 h2 h3 h4 h5 h6 h7 h8 h9 h10 h11 h12
    unfold WillingToIssue
    simp [h1, h2, h3, h4, h5, h6, h7, h8, h9, h10, h11, h12]
  · intro hmem
    cases hba : id.value.data.all isDNSCharacter with
    | false => rfl
    | true =>
      have hch := List.all_eq_true.mp hba '_' hmem
      simp [isDNSCharacter] at hch
  · intro l hl1 hl2 hlast
    unfold checkLabel
    rw [if_neg (by omega), if_neg (by omega)]
    by_cases hre : dnsLabelRegexpMatch l = true
    · rw [if_neg (by simp [hre]), if_pos (by simp [hlast])]
    · rw [if_pos (by simp [hre])]

/-- Witness for C6: the IP literal `192.0.2.1` draws the IP-address error,
and a label ending in a hyphen draws the invalid-character error. -/
theorem willingToIssue_ordered_checks_witness :
    envW.parseIP "192.0.2.1" = true ∧
    WillingToIssue envW paW ⟨.dns, "192.0.2.1"⟩ = .error errIPAddress ∧
    checkLabel envW "ab-" = .error errInvalidDNSCharacter :=
  ⟨by decide,
    (willingToIssue_ordered_checks envW paW ⟨.dns, "192.0.2.1"⟩).2.2.2.2.2.1
      (by decide) (by decide) (by decide) (by decide) (by decide) (by decide),
    (willingToIssue_ordered_checks envW paW
        ⟨.dns, "192.0.2.1"⟩).2.2.2.2.2.2.2.2.2.2.2.2.2.2 "ab-"
      (by decide) (by decide) (by decide)⟩

/-- All errors either validator can return. -/
def validatorErrors : List BErr :=
  [errInvalidIdentifier, errEmptyName, errWildcardNotSupported, errInvalidDNSCharacter,
    errNameTooLong, errIPAddress, errNameEndsInDot, errTooManyLabels, errTooFewLabels,
    errLabelTooShort, errLabelTooLong, errMalformedIDN, errInvalidRLDH, errNonPublic,
    errICANNTLD, errHostnamePolicyNotYetLoaded, errBlacklisted,
    errTooManyWildcards, errMalformedWildcard, errICANNTLDWildcard]

theorem checkLabel_error_mem (env : Env) (l : String) (e : BErr)
    (h : checkLabel env l = .error e) : e ∈ validatorErrors := by
  unfold checkLabel at h
  repeat' split at h
  all_goals first
    | (cases h; decide)
    | cases h

theorem checkLabels_error_mem (env : Env) (ls : List String) (e : BErr)
    (h : checkLabels env ls = .error e) : e ∈ validatorErrors := by
  induction ls with
  | nil => exact absurd h (by simp [checkLabels])
  | cons a rest ih =>
    unfold checkLabels at h
    cases hc : checkLabel env a with
    | error e2 =>
      rw [hc] at h
      cases h
      exact checkLabel_error_mem env a _ hc
    | ok u =>
      rw [hc] at h
      cases u
      exact ih h

theorem checkHostLists_error_mem (pa : AuthorityImpl) (d : String) (e : BErr)
    (h : checkHostLists pa d = .error e) : e ∈ validatorErrors := by
  unfold checkHostLists at h
  simp only [] at h
  repeat' split at h
  all_goals first
    | (cases h; decide)
    | cases h

theorem checkWildcardHostList_error_mem (pa : AuthorityImpl) (d : String) (e : BErr)
    (h : checkWildcardHostList pa d = .error e) : e ∈ validatorErrors := by
  unfold checkWildcardHostList at h
  repeat' split at h
  all_goals first
    | (cases h; decide)
    | cases h

theorem willingToIssue_error_mem (env : Env) (pa : AuthorityImpl)
    (id : AcmeIdentifier) (e : BErr) (h : WillingToIssue env pa id = .error e) :
    e ∈ validatorErrors := by
  unfold WillingToIssue at h
  simp only [] at h
  repeat' split at h
  all_goals first
    | exact checkHostLists_error_mem pa id.value e h
    | (cases h;
       first
         | decide
         | (rename_i heq; exact checkLabels_error_mem env (splitOnDot id.value) e heq))

theorem willingToIssueWildcard_error_mem (env : Env) (pa : AuthorityImpl)
    (id : AcmeIdentifier) (e : BErr)
    (h : WillingToIssueWildcard env pa id = .error e) : e ∈ validatorErrors := by
  unfold WillingToIssueWildcard at h
  simp only [] at h
  repeat' split at h
  all_goals first
    | exact willingToIssue_error_mem env pa _ e h
    | (cases h;
       first
         | decide
         | (rename_i heq;
            exact checkWildcardHostList_error_mem pa (trimPrefixStar id.value) e heq))

/-- C7 (amended): every error either validator returns carries the
Malformed or the RejectedIdentifier class except the "not yet loaded"
failure, which is a plain untyped (operational) error; the
RejectedIdentifier-class errors are exactly the blacklisted and
reserved-label errors, and the not-yet-loaded error is distinct from the
blacklisted error. -/
theorem validator_error_classes (env : Env) (pa : AuthorityImpl)
    (id : AcmeIdentifier) (e : BErr)
    (h : WillingToIssue env pa id = .error e ∨
      WillingToIssueWildcard env pa id = .error e) :
    (e.cls = .malformed ∨ e.cls = .rejectedIdentifier ∨
      e = errHostnamePolicyNotYetLoaded) ∧
    (e.cls = .rejectedIdentifier → (e = errBlacklisted ∨ e = errInvalidRLDH)) ∧
    (e = errHostnamePolicyNotYetLoaded →
      e.cls = .operational ∧ e ≠ errBlacklisted) := by
  have hmem : e ∈ validatorErrors := by
    rcases h with h | h
    · exact willingToIssue_error_mem env pa id e h
    · exact willingToIssueWildcard_error_mem env pa id e h
  fin_cases hmem <;> refine ⟨by decide, by decide, by decide⟩

/-- Witness for C7 (amended), at the concrete blacklisted error. -/
theorem validator_error_classes_witness :
    WillingToIssue envW paW ⟨.dns, "foo.example.com"⟩ = .error errBlacklisted ∧
    (errBlacklisted.cls = .malformed ∨ errBlacklisted.cls = .rejectedIdentifier ∨
      errBlacklisted = errHostnamePolicyNotYetLoaded) :=
  ⟨by decide,
    (validator_error_classes envW paW ⟨.dns, "foo.example.com"⟩ errBlacklisted
      (Or.inl (by decide))).1⟩

/-- Counterexample for C7 as stated: before any policy load, a
well-formed domain draws the "not yet loaded" error, which carries
neither the Malformed nor the RejectedIdentifier class. -/
theorem validator_error_classes_counterexample :
    WillingToIssue envW (New []) ⟨.dns, "good.com"⟩ =
      .error errHostnamePolicyNotYetLoaded ∧
    errHostnamePolicyNotYetLoaded.cls ≠ ErrClass.malformed ∧
    errHostnamePolicyNotYetLoaded.cls ≠ ErrClass.rejectedIdentifier :=
  ⟨by decide, by decide, by decide⟩

theorem getD_map_range_f {α : Type} (d : α) :
    ∀ (n : Nat) (f : Nat → α) (j : Nat), j < n →
      ((List.range n).map f).getD j d = f j := by
  intro n
  induction n with
  | zero => intro f j hj; omega
  | succ m ih =>
    intro f j hj
    rw [List.range_succ_eq_map, List.map_cons, List.map_map]
    cases j with
    | zero => rw [List.getD_cons_zero]
    | succ k => rw [List.getD_cons_succ]; exact ih (f ∘ Nat.succ) k (by omega)

theorem map_getD_range {α : Type} (l : List α) (d : α) :
    (List.range l.length).map (fun i => l.getD i d) = l := by
  induction l with
  | nil => rfl
  | cons a t ih =>
    rw [List.length_cons, List.range_succ_eq_map, List.map_cons, List.map_map]
    have hcomp : ((fun i => (a :: t).getD i d) ∘ Nat.succ) = fun i => t.getD i d := by
      funext i
      rw [Function.comp_apply, List.getD_cons_succ]
    rw [hcomp, List.getD_cons_zero, ih]

theorem flatten_map_singleton {α : Type} (l : List α) :
    (l.map (fun a => [a])).flatten = l := by
  induction l with
  | nil => rfl
  | cons a t ih => simp [ih]

/-- Shape of every successful `ChallengesFor` call: the ok payload is a
shuffle of the collected list plus singleton combinations. -/
theorem challengesFor_ok {σ : Type} (perm : σ → Nat → List Nat × σ)
    (hperm : ∀ s n, ((perm s n).1).Perm (List.range n))
    (feats : Features) (newToken : String) (pa : AuthorityImpl) (s : σ)
    (id : AcmeIdentifier) (regID : Int) (revalidation : Bool)
    (selected : List Challenge)
    (hc : collectChallenges feats (if feats.NewAuthorizationSchema then newToken else "")
        pa id regID revalidation = .ok selected) :
    ∃ sh combos s2,
      ChallengesFor perm feats newToken pa s id regID revalidation = (.ok (sh, combos), s2) ∧
      sh.Perm selected ∧
      sh.length = selected.length ∧
      combos.length = selected.length ∧
      (∀ c ∈ combos, ∃ i < selected.length, c = [i]) ∧
      combos.flatten.Perm (List.range selected.length) := by
  unfold ChallengesFor
  simp only [] 
  rw [hc]
  simp only [List.length_map, List.length_range]
  refine ⟨_, _, _, rfl, ?_, ?_, ?_, ?_, ?_⟩
  · have h1 := (hperm s selected.length).map
      (fun j => selected.getD j (DNSChallenge01 (if feats.NewAuthorizationSchema then newToken else "")))
    rw [map_getD_range] at h1
    exact h1
  · rw [List.length_map, (hperm s selected.length).length_eq, List.length_range]
  · rw [List.length_map,
      (hperm (perm s selected.length).2 selected.length).length_eq, List.length_range]
  · intro c hcm
    obtain ⟨j, hj, hcj⟩ := List.mem_map.mp hcm
    have hjn : j < selected.length :=
      List.mem_range.mp ((hperm (perm s selected.length).2 selected.length).mem_iff.mp hj)
    exact ⟨j, hjn, by rw [← hcj, getD_map_range_f _ _ _ j hjn]⟩
  · have hmapeq :
        ((perm (perm s selected.length).2 selected.length).1.map
          (fun j => ((List.range selected.length).map (fun i => [i])).getD j [])) =
        ((perm (perm s selected.length).2 selected.length).1.map (fun j => [j])) := by
      apply List.map_congr_left
      intro j hj
      have hjn : j < selected.length :=
        List.mem_range.mp ((hperm (perm s selected.length).2 selected.length).mem_iff.mp hj)
      exact getD_map_range_f _ _ _ j hjn
    rw [hmapeq, flatten_map_singleton]
    exact hperm (perm s selected.length).2 selected.length

/-- C8: for a wildcard identifier `ChallengesFor` returns exactly one
challenge, of type DNS-01, when DNS-01 is enabled for the account, and
otherwise an error with no challenges and no combinations, leaving the
sequencer untouched; that is the only error path of `ChallengesFor`. -/
theorem challengesFor_wildcard {σ : Type} (perm : σ → Nat → List Nat × σ)
    (hperm : ∀ (s : σ) (n : Nat), ((perm s n).1).Perm (List.range n))
    (feats : Features) (newToken : String) (pa : AuthorityImpl) (s : σ)
    (id : AcmeIdentifier) (regID : Int) (revalidation : Bool) :
    (strStartsWith "*." id.value = true →
      ChallengeTypeEnabled pa ChallengeTypeDNS01 regID = true →
      (ChallengesFor perm feats newToken pa s id regID revalidation).1 =
        .ok ([DNSChallenge01 (if feats.NewAuthorizationSchema then newToken else "")],
          [[0]])) ∧
    (strStartsWith "*." id.value = true →
      ChallengeTypeEnabled pa ChallengeTypeDNS01 regID = false →
      (ChallengesFor perm feats newToken pa s id regID revalidation).1 =
        .error "Challenges requested for wildcard identifier but DNS-01 challenge type is not enabled" ∧
      (ChallengesFor perm feats newToken pa s id regID revalidation).2 = s) ∧
    (∀ m, (ChallengesFor perm feats newToken pa s id regID revalidation).1 = .error m →
      strStartsWith "*." id.value = true ∧
      ChallengeTypeEnabled pa ChallengeTypeDNS01 regID = false) := by
  refine ⟨?_, ?_, ?_⟩
  · intro hw hen
    have hc : collectChallenges feats
        (if feats.NewAuthorizationSchema then newToken else "") pa id regID revalidation =
        .ok [DNSChallenge01 (if feats.NewAuthorizationSchema then newToken else "")] := by
      unfold collectChallenges
      simp [hw, hen]
    have h1 : (perm s 1).1 = [0] := by
      have hp : (perm s 1).1.Perm [0] := hperm s 1
      exact List.perm_singleton.mp hp
    have h2 : (perm (perm s 1).2 1).1 = [0] := by
      have hp : (perm (perm s 1).2 1).1.Perm [0] := hperm (perm s 1).2 1
      exact List.perm_singleton.mp hp
    unfold ChallengesFor
    simp only []
    rw [hc]
    simp [h1, h2]
  · intro hw hen
    unfold ChallengesFor collectChallenges
    simp [hw, hen]
  · intro m hm
    by_cases hw : strStartsWith "*." id.value = true
    · by_cases hen : ChallengeTypeEnabled pa ChallengeTypeDNS01 regID = true
      · exfalso
        have hc : collectChallenges feats
            (if feats.NewAuthorizationSchema then newToken else "") pa id regID revalidation =
            .ok [DNSChallenge01 (if feats.NewAuthorizationSchema then newToken else "")] := by
          unfold collectChallenges
          simp [hw, hen]
        unfold ChallengesFor at hm
        simp only [] at hm
        rw [hc] at hm
        simp at hm
      · exact ⟨hw, by simpa using hen⟩
    · exfalso
      have hc : ∃ l, collectChallenges feats
          (if feats.NewAuthorizationSchema then newToken else "") pa id regID revalidation =
          .ok l := by
        unfold collectChallenges
        simp [hw]
      obtain ⟨l, hc⟩ := hc
      unfold ChallengesFor at hm
      simp only [] at hm
      rw [hc] at hm
      simp at hm

/-- C9: `ChallengesFor` is a deterministic function of the sequencer state
and the challenge configuration — two authorities agreeing on those (their
blacklists may differ) and started from equal sequencer states give
identical results — and for a non-wildcard identifier with all four
challenge types enabled it returns exactly 4 challenges and 4 singleton
combinations. -/
theorem challengesFor_deterministic_four {σ : Type} (perm : σ → Nat → List Nat × σ)
    (hperm : ∀ (s : σ) (n : Nat), ((perm s n).1).Perm (List.range n))
    (feats : Features) (newToken : String) (pa1 pa2 : AuthorityImpl) (s : σ)
    (id : AcmeIdentifier) (regID : Int) (revalidation : Bool) :
    (pa1.enabledChallenges = pa2.enabledChallenges →
      pa1.enabledChallengesWhitelist = pa2.enabledChallengesWhitelist →
      ChallengesFor perm feats newToken pa1 s id regID revalidation =
        ChallengesFor perm feats newToken pa2 s id regID revalidation) ∧
    (strStartsWith "*." id.value = false →
      ChallengeTypeEnabled pa1 ChallengeTypeHTTP01 regID = true →
      ChallengeTypeEnabled pa1 ChallengeTypeTLSSNI01 regID = true →
      ChallengeTypeEnabled pa1 ChallengeTypeTLSALPN01 regID = true →
      ChallengeTypeEnabled pa1 ChallengeTypeDNS01 regID = true →
      ∃ sh combos s2,
        ChallengesFor perm feats newToken pa1 s id regID revalidation =
          (.ok (sh, combos), s2) ∧
        sh.length = 4 ∧ combos.length = 4 ∧
        (∀ c ∈ combos, ∃ i < 4, c = [i])) := by
  constructor
  · intro he hwl
    unfold ChallengesFor collectChallenges ChallengeTypeEnabled
    rw [he, hwl]
  · intro hw h1 h2 h3 h4
    have hsel : collectChallenges feats
        (if feats.NewAuthorizationSchema then newToken else "") pa1 id regID revalidation =
        .ok [HTTPChallenge01 (if feats.NewAuthorizationSchema then newToken else ""),
          TLSSNIChallenge01 (if feats.NewAuthorizationSchema then newToken else ""),
          TLSALPNChallenge01 (if feats.NewAuthorizationSchema then newToken else ""),
          DNSChallenge01 (if feats.NewAuthorizationSchema then newToken else "")] := by
      unfold collectChallenges
      simp [hw, h1, h2, h3, h4]
    obtain ⟨sh, combos, s2, heq, hp, hshlen, hclen, hmem, hjoin⟩ :=
      challengesFor_ok perm hperm feats newToken pa1 s id regID revalidation _ hsel
    exact ⟨sh, combos, s2, heq, by simpa using hshlen, by simpa using hclen,
      by simpa using hmem⟩

/-- C10: every successful `ChallengesFor` call returns a permutation of the
collected challenge list (no challenge added, dropped or duplicated), a
combination list of the same length whose members are singleton index
lists, and the indices across the combinations are exactly 0..n-1, each
exactly once. -/
theorem challengesFor_shuffle_invariants {σ : Type} (perm : σ → Nat → List Nat × σ)
    (hperm : ∀ (s : σ) (n : Nat), ((perm s n).1).Perm (List.range n))
    (feats : Features) (newToken : String) (pa : AuthorityImpl) (s : σ)
    (id : AcmeIdentifier) (regID : Int) (revalidation : Bool)
    (sh : List Challenge) (combos : List (List Nat)) (s2 : σ)
    (h : ChallengesFor perm feats newToken pa s id regID revalidation =
      (.ok (sh, combos), s2)) :
    ∃ selected,
      collectChallenges feats (if feats.NewAuthorizationSchema then newToken else "")
        pa id regID revalidation = .ok selected ∧
      sh.Perm selected ∧
      combos.length = selected.length ∧
      (∀ c ∈ combos, ∃ i < selected.length, c = [i]) ∧
      combos.flatten.Perm (List.range selected.length) := by
  cases hc : collectChallenges feats
      (if feats.NewAuthorizationSchema then newToken else "") pa id regID revalidation with
  | error e =>
    exfalso
    unfold ChallengesFor at h
    simp only [] at h
    rw [hc] at h
    simp at h
  | ok selected =>
    obtain ⟨sh2, combos2, s22, heq, hp, hshlen, hclen, hmem, hjoin⟩ :=
      challengesFor_ok perm hperm feats newToken pa s id regID revalidation selected hc
    rw [heq] at h
    simp only [Prod.mk.injEq, Except.ok.injEq] at h
    obtain ⟨⟨hsh, hcb⟩, _⟩ := h
    subst hsh
    subst hcb
    exact ⟨selected, rfl, hp, hclen, hmem, hjoin⟩

/-! ### Witness fixtures for the challenge selector -/

/-- The identity permutation draw: a lawful, concrete sequencer. -/
def idPerm : Unit → Nat → List Nat × Unit := fun _ n => (List.range n, ())

theorem idPerm_lawful : ∀ (s : Unit) (n : Nat), ((idPerm s n).1).Perm (List.range n) :=
  fun _ _ => List.Perm.refl _

/-- An authority with all four challenge types globally enabled. -/
def paAll : AuthorityImpl :=
  { blacklist := some ["example.com"]
    exactBlacklist := []
    wildcardExactBlacklist := []
    enabledChallenges :=
      [("http-01", true), ("tls-sni-01", true), ("tls-alpn-01", true), ("dns-01", true)]
    enabledChallengesWhitelist := [] }

/-- Witness for C8: wildcard with DNS-01 enabled gives one DNS-01
challenge; with DNS-01 disabled it gives the configuration error. -/
theorem challengesFor_wildcard_witness :
    strStartsWith "*." "*.a.com" = true ∧
    (ChallengesFor idPerm ⟨true, false⟩ "tok" paAll () ⟨.dns, "*.a.com"⟩ 1 false).1 =
      .ok ([DNSChallenge01 "tok"], [[0]]) ∧
    (ChallengesFor idPerm ⟨true, false⟩ "tok" (New []) () ⟨.dns, "*.a.com"⟩ 1 false).1 =
      .error "Challenges requested for wildcard identifier but DNS-01 challenge type is not enabled" :=
  ⟨by decide,
    (challengesFor_wildcard idPerm idPerm_lawful ⟨true, false⟩ "tok" paAll ()
      ⟨.dns, "*.a.com"⟩ 1 false).1 (by decide) (by decide),
    ((challengesFor_wildcard idPerm idPerm_lawful ⟨true, false⟩ "tok" (New []) ()
      ⟨.dns, "*.a.com"⟩ 1 false).2.1 (by decide) (by decide)).1⟩

/-- Witness for C9: the result ignores the blacklist fields, and all four
types enabled give 4 challenges and 4 singleton combinations. -/
theorem challengesFor_deterministic_four_witness :
    (ChallengesFor idPerm ⟨false, false⟩ "tok" paAll () ⟨.dns, "a.com"⟩ 1 false =
      ChallengesFor idPerm ⟨false, false⟩ "tok"
        { paAll with blacklist := none } () ⟨.dns, "a.com"⟩ 1 false) ∧
    (∃ sh combos s2,
      ChallengesFor idPerm ⟨false, false⟩ "tok" paAll () ⟨.dns, "a.com"⟩ 1 false =
        (.ok (sh, combos), s2) ∧
      sh.length = 4 ∧ combos.length = 4 ∧ (∀ c ∈ combos, ∃ i < 4, c = [i])) :=
  ⟨(challengesFor_deterministic_four idPerm idPerm_lawful ⟨false, false⟩ "tok" paAll
      { paAll with blacklist := none } () ⟨.dns, "a.com"⟩ 1 false).1 rfl rfl,
    (challengesFor_deterministic_four idPerm idPerm_lawful ⟨false, false⟩ "tok" paAll
      paAll () ⟨.dns, "a.com"⟩ 1 false).2 (by decide) (by decide) (by decide)
      (by decide) (by decide)⟩

/-- Witness for C10 at a concrete successful call. -/
theorem challengesFor_shuffle_invariants_witness :
    ChallengesFor idPerm ⟨false, false⟩ "tok" paAll () ⟨.dns, "a.com"⟩ 1 false =
      (.ok ([HTTPChallenge01 "", TLSSNIChallenge01 "", TLSALPNChallenge01 "",
        DNSChallenge01 ""], [[0], [1], [2], [3]]), ()) ∧
    (∃ selected,
      collectChallenges ⟨false, false⟩
        (if (⟨false, false⟩ : Features).NewAuthorizationSchema then "tok" else "")
        paAll ⟨.dns, "a.com"⟩ 1 false = .ok selected ∧
      ([HTTPChallenge01 "", TLSSNIChallenge01 "", TLSALPNChallenge01 "",
        DNSChallenge01 ""] : List Challenge).Perm selected ∧
      ([[0], [1], [2], [3]] : List (List Nat)).length = selected.length ∧
      (∀ c ∈ ([[0], [1], [2], [3]] : List (List Nat)), ∃ i < selected.length, c = [i]) ∧
      ([[0], [1], [2], [3]] : List (List Nat)).flatten.Perm
        (List.range selected.length)) :=
  ⟨by decide,
    challengesFor_shuffle_invariants idPerm idPerm_lawful ⟨false, false⟩ "tok" paAll ()
      ⟨.dns, "a.com"⟩ 1 false
      [HTTPChallenge01 "", TLSSNIChallenge01 "", TLSALPNChallenge01 "", DNSChallenge01 ""]
      [[0], [1], [2], [3]] () (by decide)⟩

end Boulder
